import Mathlib

/-!
Verification of the Solana transaction monitor (index.js and its revisions).

Signatures are opaque strings compared only for equality; they are modelled
as natural numbers. Account keys and addresses are modelled as strings, as
in the source. Lamport balances are JavaScript numbers that are integral
and far below 2^53 in every reachable state, so they are modelled as `Int`
(exact). Reconnect delays are JavaScript doubles; every value reachable in
the code (5000 · 1.5^k for k ≤ 9, capped at 120000) is exactly
representable in binary floating point, so they are modelled as `Rat`
(exact on the reachable values).
-/

namespace SolanaMonitor

/-! ## RecentSignatureCache

`processedTxs` is a JS `Set`; `handleAccountUpdate` first checks
`has(signature)`, returns if present, otherwise `add`s it, then clears the
whole set if `size > 1000`. -/

def cacheLimit : Nat := 1000

/-- The dedup check-and-insert at the top of `handleAccountUpdate`
(src/index.js lines 110–117): returns (alreadyProcessed, new cache). -/
def seen (st : Finset Nat) (s : Nat) : Bool × Finset Nat :=
  if s ∈ st then (true, st)
  else
    let st' := insert s st
    if st'.card > cacheLimit then (false, ∅) else (false, st')

/-- C1: for every signature s, `seen` returns false and records s the first
time it is called with s; it returns true (leaving the cache unchanged) on
every later call while s is resident; a size-triggered wholesale reset
empties the cache, after which `seen s` returns false exactly once more
(re-recording s) before returning true again. -/
theorem seen_dedup_contract (st : Finset Nat) (s : Nat) (h : s ∉ st) :
    (seen st s).1 = false ∧
    ((seen st s).2 = ∅ ∨ s ∈ (seen st s).2) ∧
    (∀ st' : Finset Nat, s ∈ st' → (seen st' s).1 = true ∧ (seen st' s).2 = st') ∧
    ((seen st s).2 = ∅ →
      (seen (seen st s).2 s).1 = false ∧
      s ∈ (seen (seen st s).2 s).2 ∧
      (seen (seen (seen st s).2 s).2 s).1 = true) := by
  refine ⟨?_, ?_, ?_, ?_⟩
  · simp only [seen, if_neg h]
    split <;> rfl
  · by_cases hc : cacheLimit < st.card + 1
    · left; simp [seen, h, Finset.card_insert_of_not_mem h, hc]
    · right; simp [seen, h, Finset.card_insert_of_not_mem h, hc]
  · intro st' hs
    simp [seen, hs]
  · intro hreset
    have h1 : seen (∅ : Finset Nat) s = (false, {s}) := by
      simp [seen, cacheLimit]
    rw [hreset, h1]
    refine ⟨rfl, by simp, ?_⟩
    simp [seen]

/-- Witness for `seen_dedup_contract` at the empty cache and signature 0. -/
theorem seen_dedup_contract_witness :
    (seen (∅ : Finset Nat) 0).1 = false :=
  (seen_dedup_contract ∅ 0 (by simp)).1

/-! ## Transaction data model

Mirrors the fields of `txInfo` that `handleAccountUpdate` reads:
`txInfo.transaction.message.accountKeys`, `…message.instructions`
(each with `programIdIndex` and `accounts`), and
`txInfo.meta.preBalances` / `postBalances`. `meta` is checked with
`!txInfo.meta` in the source, hence `Option`. A fetch result of `none`
covers both a null record and a record whose body fails the
`!txInfo?.transaction?.message?.instructions` optional-chaining check. -/

structure Instruction where
  programIdIndex : Nat
  accounts : List Nat
deriving DecidableEq

structure TxMeta where
  preBalances : List Int
  postBalances : List Int
deriving DecidableEq

structure TxMessage where
  accountKeys : List String
  instructions : List Instruction
deriving DecidableEq

structure TxInfo where
  message : TxMessage
  meta : Option TxMeta
deriving DecidableEq

structure TransferEvent where
  fromAddr : String
  toAddr : String
  amountLamports : Int
  signature : Nat
deriving DecidableEq

def systemProgram : String := "11111111111111111111111111111111"

/-! ## Amount policy

The source has two `isTargetAmount` variants, explicitly kept as two
policy shapes: the interval check
`lamports >= targetAmounts[0] && lamports <= targetAmounts[1]`
(src/index.js line 330) and the discrete-set check
`targetAmounts.some(t => Math.abs(lamports - t) <= tolerance)`
(src/unnamed/part_000 lines 413–417). -/

inductive AmountPolicy where
  | interval (low high : Int)
  | discreteSet (targets : List Int) (tolerance : Int)
deriving DecidableEq

def isTargetAmount : AmountPolicy → Int → Bool
  | .interval low high, lamports => decide (low ≤ lamports) && decide (lamports ≤ high)
  | .discreteSet targets tol, lamports => targets.any fun t => decide (|lamports - t| ≤ tol)

/-- `this.targetAmounts = [0.001, 1000].map(x => x * 1000000000)` with the
interval variant of `isTargetAmount` (src/index.js lines 29 and 330).
Both products are exact in double precision. -/
def intervalPolicy : AmountPolicy := .interval 1000000 1000000000000

/-- `this.targetAmounts = [1.5, 2, 2.5, 3, 3.5, 4, 4.5].map(x => x * 1e9)`
with `this.tolerance = 0.002 * 1e9` and the discrete-set variant of
`isTargetAmount` (src/unnamed/part_000 lines 178, 181, 413–417). -/
def tolerancePolicy : AmountPolicy :=
  .discreteSet [1500000000, 2000000000, 2500000000, 3000000000,
                3500000000, 4000000000, 4500000000] 2000000

/-! ## Classifier -/

/-- The `.find` over `instructions` (src/index.js lines 140–157): the first
instruction whose program id resolves to the system program and which
references exactly two accounts. An out-of-range `programIdIndex` makes
`accountKeys[instruction.programIdIndex]` undefined, so `.toString()`
throws inside the callback and the exception escapes `find` into the
enclosing catch: modelled as `Except.error`. -/
def findTransferInstruction (keys : List String) :
    List Instruction → Except String (Option Instruction)
  | [] => .ok none
  | i :: rest =>
    match keys[i.programIdIndex]? with
    | none => .error "TypeError: undefined has no toString"
    | some pid =>
      if pid = systemProgram ∧ i.accounts.length = 2 then .ok (some i)
      else findTransferInstruction keys rest

/-- The body of the `try` block of `handleAccountUpdate` after the ledger
fetch (src/index.js lines 127–190). `Except.error` marks a thrown
JavaScript exception (caught by the enclosing catch); `.ok none` is a
silent early return; `.ok (some ev)` reaches `notifyTransaction`.
A missing `preBalances[0]` or `postBalances[0]` makes `balanceChange`
NaN in JavaScript, and every comparison in `isTargetAmount` is then
false, so that case returns without an event. -/
def classifyTx (watched : List String) (pol : AmountPolicy) (sig : Nat)
    (txInfo : Option TxInfo) : Except String (Option TransferEvent) :=
  match txInfo with
  | none => .ok none
  | some tx =>
    match tx.meta with
    | none => .ok none
    | some meta =>
      match tx.message.accountKeys[0]? with
      | none => .error "TypeError: undefined has no toString"
      | some sender =>
        if sender ∈ watched then
          match findTransferInstruction tx.message.accountKeys tx.message.instructions with
          | .error e => .error e
          | .ok none => .ok none
          | .ok (some instr) =>
            match meta.preBalances[0]? with
            | none => .ok none
            | some pre =>
              match meta.postBalances[0]? with
              | none => .ok none
              | some post =>
                let balanceChange := pre - post
                if isTargetAmount pol balanceChange then
                  match instr.accounts[1]? with
                  | none => .error "TypeError: undefined has no toString"
                  | some recipientIdx =>
                    match tx.message.accountKeys[recipientIdx]? with
                    | none => .error "TypeError: undefined has no toString"
                    | some recipient =>
                      .ok (some ⟨sender, recipient, balanceChange, sig⟩)
                else .ok none
        else .ok none

/-! ## Deduplicating event processor -/

structure UpdateResult where
  cache : Finset Nat
  event : Option TransferEvent
  errorAlert : Bool
deriving DecidableEq

/-- `handleAccountUpdate` end to end (src/index.js lines 106–195): dedup
check-and-insert first, then the ledger fetch and classification inside a
try/catch. `fetch` is the outcome of `connection.getTransaction`:
`Except.error` when the call throws. Any exception from the try block is
caught and reported as a plain-text error alert (`errorAlert = true`);
nothing propagates out of the handler and nothing is retried. -/
def handleAccountUpdate (st : Finset Nat) (watched : List String)
    (pol : AmountPolicy) (sig : Nat) (fetch : Except String (Option TxInfo)) :
    UpdateResult :=
  let r := seen st sig
  if r.1 then ⟨r.2, none, false⟩
  else
    match fetch with
    | .error _ => ⟨r.2, none, true⟩
    | .ok txo =>
      match classifyTx watched pol sig txo with
      | .error _ => ⟨r.2, none, true⟩
      | .ok ev => ⟨r.2, ev, false⟩

/-! ## Sender gate (C8) -/

/-- C8: for any fetched record whose sender (account at index 0) is not in
the watched address set, classification rejects with no event and no
exception, regardless of balances or amount policy. -/
theorem classify_rejects_unwatched (watched : List String) (pol : AmountPolicy)
    (sig : Nat) (tx : TxInfo) (meta : TxMeta) (sender : String)
    (hm : tx.meta = some meta) (hs : tx.message.accountKeys[0]? = some sender)
    (hw : sender ∉ watched) :
    classifyTx watched pol sig (some tx) = .ok none := by
  simp [classifyTx, hm, hs, hw]

/-- Witness for `classify_rejects_unwatched` at a concrete record whose
sender is not watched. -/
theorem classify_rejects_unwatched_witness :
    classifyTx ["W"] intervalPolicy 3
      (some ⟨⟨["X", "R", systemProgram], [⟨2, [0, 1]⟩]⟩,
             some ⟨[2002000000], [2000000000]⟩⟩) = .ok none :=
  classify_rejects_unwatched ["W"] intervalPolicy 3
    ⟨⟨["X", "R", systemProgram], [⟨2, [0, 1]⟩]⟩, some ⟨[2002000000], [2000000000]⟩⟩
    ⟨[2002000000], [2000000000]⟩ "X" rfl rfl (by decide)

/-! ## Balance-delta example (C9) -/

/-- The record of spec §8's worked example: watched sender at index 0,
`preBalances[0] = 2002000000`, `postBalances[0] = 2000000000`, one system
program instruction referencing exactly two accounts. -/
def tx9 : TxInfo :=
  { message := { accountKeys := ["S", "R", systemProgram],
                 instructions := [⟨2, [0, 1]⟩] },
    meta := some { preBalances := [2002000000], postBalances := [2000000000] } }

/-- C9 counterexample: on the example record the computed delta
`preBalances[0] - postBalances[0]` is 2000000 lamports, not 2000000000,
and the discrete-set policy (targets include 2 SOL, tolerance 0.002 SOL)
rejects it: classification emits no event. -/
theorem classify_delta_counterexample :
    (2002000000 : Int) - 2000000000 ≠ 2000000000 ∧
    isTargetAmount tolerancePolicy (2002000000 - 2000000000) = false ∧
    classifyTx ["S"] tolerancePolicy 7 (some tx9) = .ok none := by
  refine ⟨by decide, by decide, ?_⟩
  rfl

/-- C9 amended: the computed amount is 2000000 lamports; the interval
policy [0.001 SOL, 1000 SOL] accepts it (an event is emitted carrying
amount 2000000), while the discrete-set policy {1.5..4.5 SOL, tolerance
0.002 SOL} rejects it. -/
theorem classify_delta_amended :
    classifyTx ["S"] intervalPolicy 7 (some tx9) =
      .ok (some ⟨"S", "R", 2000000, 7⟩) ∧
    isTargetAmount intervalPolicy 2000000 = true ∧
    isTargetAmount tolerancePolicy 2000000 = false := by
  refine ⟨?_, by decide, by decide⟩
  rfl

/-! ## Qualifying instruction and recipient (C7) -/

/-- Soundness of the instruction search: a found instruction is directed at
the system program and references exactly two accounts. -/
theorem findTransferInstruction_sound (keys : List String)
    (l : List Instruction) (i : Instruction)
    (h : findTransferInstruction keys l = .ok (some i)) :
    keys[i.programIdIndex]? = some systemProgram ∧ i.accounts.length = 2 := by
  induction l with
  | nil => simp [findTransferInstruction] at h
  | cons j rest ih =>
    rw [findTransferInstruction] at h
    cases hk : keys[j.programIdIndex]? with
    | none => rw [hk] at h; simp at h
    | some pid =>
      rw [hk] at h
      simp only [] at h
      by_cases hp : pid = systemProgram ∧ j.accounts.length = 2
      · rw [if_pos hp] at h
        obtain rfl : j = i := by
          simpa using h
        exact ⟨hp.1 ▸ hk, hp.2⟩
      · rw [if_neg hp] at h
        exact ih h

/-- C7: whenever classification emits an event, the qualifying instruction
found by the search is directed at the system program and references
exactly two accounts, and the emitted recipient is the account key selected
by the second entry of that instruction's own `accounts` list (local
indexing mapped through the global key table). -/
theorem classify_recipient_local_index (watched : List String)
    (pol : AmountPolicy) (sig : Nat) (tx : TxInfo) (ev : TransferEvent)
    (h : classifyTx watched pol sig (some tx) = .ok (some ev)) :
    ∃ instr,
      findTransferInstruction tx.message.accountKeys tx.message.instructions
        = .ok (some instr) ∧
      tx.message.accountKeys[instr.programIdIndex]? = some systemProgram ∧
      instr.accounts.length = 2 ∧
      ∃ rIdx, instr.accounts[1]? = some rIdx ∧
        tx.message.accountKeys[rIdx]? = some ev.toAddr := by
  rw [classifyTx] at h
  cases hm : tx.meta with
  | none => rw [hm] at h; simp at h
  | some meta =>
  rw [hm] at h
  simp only [] at h
  cases hs : tx.message.accountKeys[0]? with
  | none => rw [hs] at h; simp at h
  | some sender =>
  rw [hs] at h
  simp only [] at h
  by_cases hw : sender ∈ watched
  case neg => rw [if_neg hw] at h; simp at h
  rw [if_pos hw] at h
  cases hf : findTransferInstruction tx.message.accountKeys tx.message.instructions with
  | error e => rw [hf] at h; simp at h
  | ok oinstr =>
  rw [hf] at h
  cases oinstr with
  | none => simp at h
  | some instr =>
  simp only [] at h
  cases hpre : meta.preBalances[0]? with
  | none => rw [hpre] at h; simp at h
  | some pre =>
  rw [hpre] at h
  simp only [] at h
  cases hpost : meta.postBalances[0]? with
  | none => rw [hpost] at h; simp at h
  | some post =>
  rw [hpost] at h
  simp only [] at h
  by_cases ht : isTargetAmount pol (pre - post) = true
  case neg => rw [if_neg ht] at h; simp at h
  rw [if_pos ht] at h
  cases hr : instr.accounts[1]? with
  | none => rw [hr] at h; simp at h
  | some rIdx =>
  rw [hr] at h
  simp only [] at h
  cases hrec : tx.message.accountKeys[rIdx]? with
  | none => rw [hrec] at h; simp at h
  | some recipient =>
  rw [hrec] at h
  simp only [] at h
  obtain rfl : (⟨sender, recipient, pre - post, sig⟩ : TransferEvent) = ev := by
    simpa using h
  obtain ⟨h1, h2⟩ := findTransferInstruction_sound _ _ _ hf
  exact ⟨instr, rfl, h1, h2, rIdx, hr, hrec⟩

/-- Witness for `classify_recipient_local_index` at a concrete record with
the transfer instruction in second position and a shuffled key table. -/
theorem classify_recipient_local_index_witness :
    ∃ instr,
      findTransferInstruction ["S", systemProgram, "D", "R"] [⟨1, [0, 2, 3]⟩, ⟨1, [0, 3]⟩]
        = .ok (some instr) ∧
      (["S", systemProgram, "D", "R"] : List String)[instr.programIdIndex]? = some systemProgram ∧
      instr.accounts.length = 2 ∧
      ∃ rIdx, instr.accounts[1]? = some rIdx ∧
        (["S", systemProgram, "D", "R"] : List String)[rIdx]? =
          some (TransferEvent.toAddr ⟨"S", "R", 2000000, 7⟩) :=
  classify_recipient_local_index ["S"] intervalPolicy 7
    ⟨⟨["S", systemProgram, "D", "R"], [⟨1, [0, 2, 3]⟩, ⟨1, [0, 3]⟩]⟩,
     some ⟨[2002000000], [2000000000]⟩⟩
    ⟨"S", "R", 2000000, 7⟩ (by rfl)

/-! ## Lookup failure and malformed records (C2) -/

/-- C2 counterexample: with the cache holding 1000 signatures, a fresh
signature whose ledger fetch throws is NOT marked seen afterwards — adding
it pushed the size to 1001, so the wholesale reset cleared the cache,
including the signature being serviced. -/
theorem lookup_failure_counterexample :
    (handleAccountUpdate (Finset.range 1000) ["S"] intervalPolicy 1000
        (.error "fetch failed")).event = none ∧
    (handleAccountUpdate (Finset.range 1000) ["S"] intervalPolicy 1000
        (.error "fetch failed")).cache = ∅ ∧
    1000 ∉ (handleAccountUpdate (Finset.range 1000) ["S"] intervalPolicy 1000
        (.error "fetch failed")).cache := by
  have hmem : (1000 : Nat) ∉ Finset.range 1000 := by simp
  have hcard : (insert 1000 (Finset.range 1000)).card = 1001 := by
    rw [Finset.card_insert_of_not_mem hmem, Finset.card_range]
  have hseen : seen (Finset.range 1000) 1000 = (false, ∅) := by
    simp [seen, hmem, hcard, cacheLimit]
  refine ⟨?_, ?_, ?_⟩ <;> simp [handleAccountUpdate, hseen]

/-- C2 amended: if the ledger lookup throws, or the fetched record is null,
or it lacks settlement metadata, the handler finishes without an event and
without any exception escaping (the catch turns thrown errors into a
plain-text alert), and the signature remains marked seen — unless servicing
it pushed the cache past 1000 entries, in which case the wholesale reset
emptied the cache (signature included) and that signature could be
reprocessed once if redelivered. No retry is initiated either way. -/
theorem lookup_failure_aborts (st : Finset Nat) (watched : List String)
    (pol : AmountPolicy) (sig : Nat) (fetch : Except String (Option TxInfo))
    (hs : sig ∉ st)
    (hbad : (∃ e, fetch = .error e) ∨ fetch = .ok none ∨
            ∃ tx, fetch = .ok (some tx) ∧ tx.meta = none) :
    (handleAccountUpdate st watched pol sig fetch).event = none ∧
    ((insert sig st).card ≤ cacheLimit →
      sig ∈ (handleAccountUpdate st watched pol sig fetch).cache) ∧
    (cacheLimit < (insert sig st).card →
      (handleAccountUpdate st watched pol sig fetch).cache = ∅) := by
  have hcache : (seen st sig).1 = false ∧
      ((insert sig st).card ≤ cacheLimit → sig ∈ (seen st sig).2) ∧
      (cacheLimit < (insert sig st).card → (seen st sig).2 = ∅) := by
    have hins : (insert sig st).card = st.card + 1 :=
      Finset.card_insert_of_not_mem hs
    by_cases hc : cacheLimit < st.card + 1
    · refine ⟨?_, fun hle => by rw [hins] at hle; omega, fun _ => ?_⟩ <;>
        simp [seen, hs, hc]
    · refine ⟨?_, fun _ => ?_, fun hlt => by rw [hins] at hlt; omega⟩ <;>
        simp [seen, hs, hc]
  obtain ⟨h1, h2, h3⟩ := hcache
  have hev : (handleAccountUpdate st watched pol sig fetch).event = none ∧
      (handleAccountUpdate st watched pol sig fetch).cache = (seen st sig).2 := by
    rcases hbad with ⟨e, rfl⟩ | rfl | ⟨tx, rfl, hm⟩
    · simp [handleAccountUpdate, h1]
    · simp [handleAccountUpdate, h1, classifyTx]
    · have hcl : classifyTx watched pol sig (some tx) = .ok none := by
        rw [classifyTx, hm]
      simp [handleAccountUpdate, h1, hcl]
  exact ⟨hev.1, fun hle => hev.2 ▸ h2 hle, fun hlt => hev.2 ▸ h3 hlt⟩

/-- Witness for `lookup_failure_aborts`: fresh signature 5, empty cache,
throwing fetch. -/
theorem lookup_failure_aborts_witness :
    (handleAccountUpdate (∅ : Finset Nat) ["S"] intervalPolicy 5
        (.error "boom")).event = none ∧
    5 ∈ (handleAccountUpdate (∅ : Finset Nat) ["S"] intervalPolicy 5
        (.error "boom")).cache :=
  ⟨(lookup_failure_aborts ∅ ["S"] intervalPolicy 5 (.error "boom")
      (by simp) (Or.inl ⟨"boom", rfl⟩)).1,
   (lookup_failure_aborts ∅ ["S"] intervalPolicy 5 (.error "boom")
      (by simp) (Or.inl ⟨"boom", rfl⟩)).2.1 (by simp [cacheLimit])⟩

/-! ## SubscriptionClient: subscribe requests and acks (C4, C10) -/

structure SubscribeRequest where
  id : Int
  mentions : List String
  commitment : String
deriving DecidableEq

/-- `subscribeToLogs(address)` (src/index.js lines 34–49): the request
object literal carries `"id": 1` — a constant, not a per-address
counter. -/
def subscribeToLogs (address : String) : SubscribeRequest :=
  { id := 1, mentions := [address], commitment := "confirmed" }

/-- The `open` handler sends `addresses.forEach(addr =>
this.subscribeToLogs(addr))` (src/index.js line 68): one request per
address, in list order. -/
def openSubscribeRequests (addresses : List String) : List SubscribeRequest :=
  addresses.map subscribeToLogs

/-- An inbound frame as read by the `message` handler: `result` (absent on
notifications) and `id`. -/
structure AckFrame where
  id : Int
  result : Option Int
deriving DecidableEq

/-- `addresses[message.id - 1]` with JavaScript out-of-range indexing
yielding undefined. -/
def addrAt (addresses : List String) (i : Int) : Option String :=
  if i < 0 then none else addresses[i.toNat]?

/-- The subscription-binding branch of the `message` handler
(src/index.js lines 77–80): `if (message.result) {
this.subscriptions[message.result] = addresses[message.id - 1]; }`.
The JS object is modelled as an association list, newest binding first;
`message.result` of 0 (or absent) is falsy, so no binding is stored. -/
def processAck (subs : List (Int × Option String)) (addresses : List String)
    (frame : AckFrame) : List (Int × Option String) :=
  match frame.result with
  | none => subs
  | some r => if r ≠ 0 then (r, addrAt addresses (frame.id - 1)) :: subs else subs

/-- C4 evaluated on the code: with two watched addresses, both subscribe
requests carry correlation id 1 (the second is not 2), and consequently
acks with the echoed id 1 always bind the returned subscription id to the
FIRST address, whichever subscription was acknowledged. -/
theorem subscribe_ids_constant :
    (openSubscribeRequests ["A", "B"]).map SubscribeRequest.id = [1, 1] ∧
    processAck [] ["A", "B"] ⟨1, some 5⟩ = [(5, some "A")] ∧
    processAck [] ["A", "B"] ⟨1, some 6⟩ = [(6, some "A")] := by
  refine ⟨rfl, ?_, ?_⟩ <;> rfl

/-- C10: an ack frame whose `result` is the falsy subscription id 0 leaves
the subscriptions map unchanged; the frame is dropped without error for
every map, address list and echoed id. -/
theorem falsy_ack_ignored (subs : List (Int × Option String))
    (addresses : List String) (i : Int) :
    processAck subs addresses ⟨i, some 0⟩ = subs := by
  simp [processAck]

/-! ## Heartbeat (C3)

`startPing` (src/unnamed/part_000 lines 275–295) pings every 15 s while
the socket reports itself OPEN and arms a 5 s timeout; the timeout
callback checks ONLY `this.ws.readyState === WebSocket.OPEN` and then
calls `this.ws.terminate()`. The `pong` listener (lines 233–235) only
logs; no field of the monitor records that a pong arrived. -/

structure ConnState where
  wsOpen : Bool
  terminated : Bool
deriving DecidableEq

/-- The `pong` event handler: `console.log(...)` only — the identity on
monitor state. -/
def onPong (st : ConnState) : ConnState := st

/-- The 5-second timeout callback armed after each ping: terminate the
socket whenever it still reports itself open. -/
def onPongDeadline (st : ConnState) : ConnState :=
  if st.wsOpen then { wsOpen := false, terminated := true } else st

/-- C3 evaluated on the code: starting from an open, live socket, even when
a pong IS received before the deadline, the deadline callback still
terminates the stream — receipt of the heartbeat response is never
recorded, so the force-close is unconditional on an open link, contrary to
the claimed "if and only if no heartbeat response was observed". -/
theorem pong_deadline_ignores_response :
    onPong ⟨true, false⟩ = ⟨true, false⟩ ∧
    (onPongDeadline (onPong ⟨true, false⟩)).terminated = true ∧
    (onPongDeadline (onPong ⟨true, false⟩)).wsOpen = false := by
  refine ⟨rfl, rfl, rfl⟩

/-! ## Reconnect backoff (C5, C6)

`handleReconnect` (src/unnamed/part_000 lines 256–273) with
`maxReconnectAttempts = 10` and `reconnectDelay = 5000`. -/

def maxReconnectAttempts : Nat := 10

/-- `Math.min(this.reconnectDelay * Math.pow(1.5, this.reconnectAttempts
- 1), 120000)` evaluated after the counter was incremented to `attempt`.
Every reachable value (attempt ≤ 10) is exact in double precision, so
rationals model the computation exactly. -/
def reconnectDelay (attempt : Nat) : Rat :=
  min (5000 * (3 / 2 : Rat) ^ ((attempt : Int) - 1)) 120000

structure ReconnectResult where
  attempts : Nat
  scheduledDelay : Option Rat
  terminalAlert : Bool
deriving DecidableEq

/-- One invocation of `handleReconnect` at the current attempt counter:
below the maximum it increments the counter and schedules a reconnect
timer; at the maximum it schedules nothing and broadcasts the terminal
alert. -/
def handleReconnect (attempts : Nat) : ReconnectResult :=
  if attempts < maxReconnectAttempts then
    ⟨attempts + 1, some (reconnectDelay (attempts + 1)), false⟩
  else
    ⟨attempts, none, true⟩

/-- C5 counterexample: the delay scheduled for reconnect attempt 5 is
25312.5 ms (5000 × 1.5⁴, exact in double precision), not 25312 ms. -/
theorem reconnect_delay_counterexample :
    reconnectDelay 5 ≠ 25312 ∧ reconnectDelay 5 = 50625 / 2 := by
  constructor <;> norm_num [reconnectDelay, min_def]

/-- C5 amended: delays for attempts 1..5 are
[5000, 7500, 11250, 16875, 25312.5] ms, and the delay never exceeds
120000 ms at any attempt count. -/
theorem reconnect_delay_schedule :
    reconnectDelay 1 = 5000 ∧ reconnectDelay 2 = 7500 ∧
    reconnectDelay 3 = 11250 ∧ reconnectDelay 4 = 16875 ∧
    reconnectDelay 5 = 50625 / 2 ∧
    ∀ n : Nat, reconnectDelay n ≤ 120000 := by
  refine ⟨?_, ?_, ?_, ?_, ?_, fun n => min_le_right _ _⟩ <;>
    norm_num [reconnectDelay, min_def]

/-- Driver for the scenario in which every connection attempt fails: each
close event invokes `handleReconnect`; a scheduled timer reopens a socket
whose failure raises exactly one further close event. Returns the total
number of reconnect timers scheduled and terminal alerts broadcast from a
close event arriving at attempt counter `a` onward. -/
def closeCascade (a : Nat) : Nat × Nat :=
  let r := handleReconnect a
  match r.scheduledDelay with
  | some _ =>
    if h : a < maxReconnectAttempts then
      let rest := closeCascade r.attempts
      (rest.1 + 1, rest.2 + (if r.terminalAlert then 1 else 0))
    else
      (1, if r.terminalAlert then 1 else 0)
  | none => (0, if r.terminalAlert then 1 else 0)
termination_by maxReconnectAttempts - a
decreasing_by
  simp only [handleReconnect, if_pos h] at *
  omega

/-- Below the maximum the cascade schedules one timer, no alert, and
recurses at the incremented counter. -/
theorem closeCascade_step (a : Nat) (h : a < maxReconnectAttempts) :
    closeCascade a = ((closeCascade (a + 1)).1 + 1, (closeCascade (a + 1)).2) := by
  rw [closeCascade]
  simp [handleReconnect, h]

/-- At or beyond the maximum the cascade schedules nothing and broadcasts
exactly one terminal alert. -/
theorem closeCascade_stop (a : Nat) (h : maxReconnectAttempts ≤ a) :
    closeCascade a = (0, 1) := by
  rw [closeCascade]
  simp [handleReconnect, Nat.not_lt.mpr h]

/-- C6: once 10 consecutive reconnect attempts have failed,
`handleReconnect` schedules no further timer and broadcasts the terminal
alert, leaving the attempt counter untouched (inert until externally
restarted); and over a whole run in which every connection attempt fails,
starting from a fresh counter, exactly 10 reconnect timers are scheduled
and exactly one terminal alert is broadcast. -/
theorem reconnect_terminal_alert :
    (∀ a : Nat, maxReconnectAttempts ≤ a →
      (handleReconnect a).scheduledDelay = none ∧
      (handleReconnect a).terminalAlert = true ∧
      (handleReconnect a).attempts = a) ∧
    closeCascade 0 = (maxReconnectAttempts, 1) := by
  constructor
  · intro a ha
    refine ⟨?_, ?_, ?_⟩ <;> simp [handleReconnect, Nat.not_lt.mpr ha]
  · have key : ∀ k a, a + k = maxReconnectAttempts → closeCascade a = (k, 1) := by
      intro k
      induction k with
      | zero =>
        intro a ha
        exact closeCascade_stop a (by omega)
      | succ n ih =>
        intro a ha
        rw [closeCascade_step a (by omega), ih (a + 1) (by omega)]
    exact key maxReconnectAttempts 0 (by simp)

/-- Witness for `reconnect_terminal_alert` at attempt counter 10. -/
theorem reconnect_terminal_alert_witness :
    (handleReconnect 10).scheduledDelay = none ∧
    (handleReconnect 10).terminalAlert = true ∧
    closeCascade 0 = (10, 1) :=
  ⟨(reconnect_terminal_alert.1 10 (by decide)).1,
   (reconnect_terminal_alert.1 10 (by decide)).2.1,
   reconnect_terminal_alert.2⟩

end SolanaMonitor
